import Mathlib

/-!
Verification development for the ParametricTool NEN 5060 window-shading
classifier.  The Python sources contain three near-identical copies of the
classification engine:

* backend/core/classification_logic.py          (called the backend variant)
* python_external/nen5060_service/core/classification_logic.py
                                                (called the service variant)
* python_internal/Overstek_Belemmering_GH.py    (called the internal variant)

Pure arithmetic and control flow are embedded directly.  Calls into the
external geometry libraries (trimesh intersection queries, trimesh centroid
and per-face data, Rhino bounding boxes) are modelled as explicit oracle
parameters, so every theorem is quantified over all possible behaviours of
those libraries.  Angles, weights, table values and ray-hit distances are
modelled as rationals; spatial coordinates and the trigonometric helpers as
real numbers.
-/

/-- Component-wise real 3d point, mirroring rhino3dm Point3d. -/
structure Point3 where
  X : ℝ
  Y : ℝ
  Z : ℝ

/-- Component-wise real 3d vector, mirroring rhino3dm Vector3d. -/
structure Vec3 where
  X : ℝ
  Y : ℝ
  Z : ℝ

/-- Axis-aligned bounding box, mirroring rhino3dm BoundingBox. -/
structure BBox where
  Min : Point3
  Max : Point3

/-- Vector addition. -/
def vadd (a b : Vec3) : Vec3 := ⟨a.X + b.X, a.Y + b.Y, a.Z + b.Z⟩

/-- Scalar multiple of a vector. -/
def vsmul (c : ℝ) (v : Vec3) : Vec3 := ⟨c * v.X, c * v.Y, c * v.Z⟩

/-- Cross product, mirroring Vector3d.CrossProduct. -/
def vcross (a b : Vec3) : Vec3 :=
  ⟨a.Y * b.Z - a.Z * b.Y, a.Z * b.X - a.X * b.Z, a.X * b.Y - a.Y * b.X⟩

/-- Euclidean length of a vector, mirroring Vector3d.Length. -/
noncomputable def vlength (v : Vec3) : ℝ :=
  Real.sqrt (v.X ^ 2 + v.Y ^ 2 + v.Z ^ 2)

/-- Unitize a vector in place, mirroring Vector3d.Unitize: a zero vector is
left unchanged, any other vector is divided by its length. -/
noncomputable def unitize (v : Vec3) : Vec3 :=
  if vlength v = 0 then v else vsmul (1 / vlength v) v

/-- Degree-to-radian conversion, mirroring math.radians. -/
noncomputable def radians (d : ℚ) : ℝ := (d : ℝ) * Real.pi / 180

/-- Vertical elevation angles tested by the context ray fan
(classification_logic.py line 17, all variants). -/
def VERTICAL_ANGLES : List ℚ :=
  [5, 10, 15, 20, 25, 30, 35, 40, 45, 50, 55, 60, 65, 70, 75, 80]

/-- Horizontal spread of the context ray fan in degrees. -/
def HORIZONTAL_SPREAD : ℚ := 60

/-- Number of horizontal steps of the context ray fan. -/
def HORIZONTAL_STEPS : ℕ := 9

/-- Minimum hit distance accepted by the ray casters. -/
def MIN_RAY_DISTANCE : ℚ := 0.05

/-- Maximum context hit distance accepted by the context ray caster, and the
horizontal-distance cutoff of the context prefilter. -/
def MAX_CONTEXT_DISTANCE : ℚ := 500

/-- Maximum shading hit distance accepted by the service shading ray caster. -/
def MAX_SHADING_DISTANCE : ℚ := 50

/-- Significance threshold of the service and internal variants. -/
def MINIMAL_OBSTRUCTION_THRESHOLD : ℚ := 20

/-- Context significance threshold of the backend variant. -/
def CONTEXT_THRESHOLD : ℚ := 20

/-- Overhang significance threshold of the backend variant. -/
def OVERHANG_THRESHOLD : ℚ := 45

/-- Maximum of a list of rationals, 0 for the empty list.  The Python
sources only take maxima of lists that are guarded to be non-empty and
default to 0.0 otherwise, which this function reproduces. -/
def listMax : List ℚ → ℚ
  | [] => 0
  | a :: as => as.foldl max a

/-- Maximum of a list of naturals, 0 for the empty list; used for the
np.max over ray indices in the backend shading caster. -/
def listMaxNat : List ℕ → ℕ
  | [] => 0
  | a :: as => as.foldl max a

theorem foldl_max_le {b : ℚ} :
    ∀ (l : List ℚ) (a : ℚ), a ≤ b → (∀ x ∈ l, x ≤ b) → l.foldl max a ≤ b := by
  intro l
  induction l with
  | nil => intro a ha _; simpa using ha
  | cons x xs ih =>
    intro a ha hx
    simp only [List.foldl_cons]
    exact ih (max a x) (max_le ha (hx x (List.mem_cons_self x xs)))
      fun y hy => hx y (List.mem_cons_of_mem x hy)

theorem le_foldl_max : ∀ (l : List ℚ) (a : ℚ), a ≤ l.foldl max a := by
  intro l
  induction l with
  | nil => intro a; simp
  | cons x xs ih =>
    intro a
    simp only [List.foldl_cons]
    exact le_trans (le_max_left a x) (ih (max a x))

theorem listMax_le {l : List ℚ} {b : ℚ} (hb : 0 ≤ b) (h : ∀ x ∈ l, x ≤ b) :
    listMax l ≤ b := by
  cases l with
  | nil => simpa [listMax] using hb
  | cons a as =>
    exact foldl_max_le as a (h a (List.mem_cons_self a as))
      fun x hx => h x (List.mem_cons_of_mem a hx)

theorem listMax_nonneg {l : List ℚ} (h : ∀ x ∈ l, 0 ≤ x) : 0 ≤ listMax l := by
  cases l with
  | nil => simp [listMax]
  | cons a as =>
    exact le_trans (h a (List.mem_cons_self a as)) (le_foldl_max as a)

theorem listMax_eq_zero {l : List ℚ} (h : ∀ x ∈ l, x = 0) : listMax l = 0 :=
  le_antisymm (listMax_le le_rfl fun x hx => le_of_eq (h x hx))
    (listMax_nonneg fun x hx => ge_of_eq (h x hx))

/-- Rhino mesh face: an index quad (A, B, C, D); a triangle is stored with
C = D, exactly the tuple format handled by rhino_mesh_to_trimesh. -/
structure RFace where
  A : ℕ
  B : ℕ
  C : ℕ
  D : ℕ
deriving DecidableEq

/-- Rhino mesh: vertex positions plus quad/triangle faces. -/
structure RhinoMesh where
  vertices : List Point3
  faces : List RFace

/-- Triangulated mesh as produced by the trimesh library: vertex positions
plus triangle index triples. -/
structure Trimesh where
  vertices : List Point3
  faces : List (ℕ × ℕ × ℕ)

/-- Triangulation of one rhino face, mirroring the tuple branch of
rhino_mesh_to_trimesh (backend lines 63-73, service lines 44-49): a quad
with C = D is one triangle, otherwise the quad splits into A-B-C and
A-C-D. -/
def face_to_tris (f : RFace) : List (ℕ × ℕ × ℕ) :=
  if f.C = f.D then [(f.A, f.B, f.C)]
  else [(f.A, f.B, f.C), (f.A, f.C, f.D)]

/-- Conversion from a rhino mesh to a trimesh, mirroring
rhino_mesh_to_trimesh: None stays None, and a mesh with no vertices or no
resolvable triangles converts to None. -/
def rhino_mesh_to_trimesh : Option RhinoMesh → Option Trimesh
  | none => none
  | some mesh =>
    let vs := mesh.vertices
    let fs := (mesh.faces.map face_to_tris).flatten
    if vs.isEmpty || fs.isEmpty then none else some ⟨vs, fs⟩

/-- Derived properties of a window mesh. -/
structure MeshProps where
  center : Point3
  normal : Vec3
  bbox : BBox

/-- Oracle bundling the external geometry-library calls used by the core:
trimesh centroid, trimesh per-face normals paired with face areas, the Rhino
bounding box of a mesh, and the trimesh batch ray intersector.  The
intersector returns, for each registered hit, the index of the ray that hit
together with the distance from the ray origin to the hit location (the
Python computes this distance from intersects_id locations with
np.linalg.norm). -/
structure TrimeshLib where
  centroid : Trimesh → Point3
  faceData : Trimesh → List (Vec3 × ℝ)
  rhinoBBox : RhinoMesh → BBox
  raycast : Trimesh → List Point3 → List Vec3 → List (ℕ × ℚ)

/-- Center, area-weighted unit normal and bounding box of a mesh, mirroring
get_mesh_center_and_normal (backend lines 80-128): None and vertex-free
meshes give None, a mesh that does not convert to a trimesh gives None, and
otherwise the normal is the area-weighted average of the trimesh face
normals, unitized, with the trimesh centroid as center. -/
noncomputable def get_mesh_center_and_normal (lib : TrimeshLib) :
    Option RhinoMesh → Option MeshProps
  | none => none
  | some mesh =>
    if mesh.vertices.isEmpty then none
    else
      match rhino_mesh_to_trimesh (some mesh) with
      | none => none
      | some tm =>
        let fd := lib.faceData tm
        let total_area := (fd.map fun p => p.2).sum
        let acc := fd.foldl (fun a p => vadd a (vsmul p.2 p.1)) ⟨0, 0, 0⟩
        let weighted := if 0 < total_area then vsmul (1 / total_area) acc
          else ⟨0, 0, 0⟩
        some ⟨lib.centroid tm, unitize weighted, lib.rhinoBBox mesh⟩

/-- Two-argument arctangent, mirroring math.atan2(y, x): the angle of the
point (x, y) in (-pi, pi], with math.atan2(0, 0) = 0. -/
noncomputable def atan2 (y x : ℝ) : ℝ :=
  if 0 < x then Real.arctan (y / x)
  else if x < 0 ∧ 0 ≤ y then Real.arctan (y / x) + Real.pi
  else if x < 0 ∧ y < 0 then Real.arctan (y / x) - Real.pi
  else if x = 0 ∧ 0 < y then Real.pi / 2
  else if x = 0 ∧ y < 0 then -(Real.pi / 2)
  else 0

/-- Radian-to-degree conversion, mirroring math.degrees. -/
noncomputable def degrees (r : ℝ) : ℝ := r * 180 / Real.pi

/-- Normalization of a degree angle into [0, 360), mirroring the
"if angle_deg < 0: angle_deg += 360" step of the orientation classifier. -/
noncomputable def normalize_deg (d : ℝ) : ℝ := if d < 0 then d + 360 else d

/-- Compass bracket lookup on a normalized degree angle, mirroring the
if/elif chain of vector_to_compass_orientation (backend lines 140-155). -/
noncomputable def compass_label (a : ℝ) : String :=
  if 337.5 ≤ a ∨ a < 22.5 then "Noord"
  else if a < 67.5 then "Noord Oost"
  else if a < 112.5 then "Oost"
  else if a < 157.5 then "Zuid Oost"
  else if a < 202.5 then "Zuid"
  else if a < 247.5 then "Zuid West"
  else if a < 292.5 then "West"
  else "Noord West"

/-- Compass orientation of a window normal, mirroring
vector_to_compass_orientation (identical in all three variants): the angle
atan2(normal.X, normal.Y) in degrees, normalized to [0, 360), mapped
through the 45-degree compass brackets. -/
noncomputable def vector_to_compass_orientation (normal : Vec3) : String :=
  compass_label (normalize_deg (degrees (atan2 normal.X normal.Y)))

/-- Obstruction-ratio category of a ho ratio, mirroring get_ho_category
(identical in all variants). -/
noncomputable def get_ho_category (ho_ratio : ℝ) : String :=
  if ho_ratio < 0.5 then "<0.5"
  else if ho_ratio < 1.0 then "0.5-1.0"
  else ">=1.0"

/-- Tangent-based approximation of the obstruction ratio for a context
elevation angle, mirroring angle_to_ho_ratio_approximation (backend lines
513-516, internal lines 1166-1171): 0 at or below 0 degrees, 2 at or above
89 degrees, and otherwise the raw tangent of the angle. -/
noncomputable def angle_to_ho_ratio_approximation (angle_degrees : ℚ) : ℝ :=
  if angle_degrees ≤ 0 then 0
  else if 89 ≤ angle_degrees then 2
  else Real.tan (radians angle_degrees)

/-- Weighted sample points on the window face, mirroring
get_window_sample_points (backend lines 157-191): three bottom points at
weights 1.5 / 2.0 / 1.5, one mid-height center point at weight 1.0 and one
top center point at weight 0.5. -/
noncomputable def get_window_sample_points (window_bbox : BBox)
    (window_normal : Vec3) : List (Point3 × ℚ) :=
  let min_pt := window_bbox.Min
  let max_pt := window_bbox.Max
  let center_x := (min_pt.X + max_pt.X) / 2
  let center_y := (min_pt.Y + max_pt.Y) / 2
  let up : Vec3 := ⟨0, 0, 1⟩
  let right0 := vcross window_normal up
  let right1 := if vlength right0 < 0.001 then (⟨1, 0, 0⟩ : Vec3) else right0
  let right := unitize right1
  let width := max (max_pt.X - min_pt.X) (max_pt.Y - min_pt.Y)
  let half_width := width * 0.35
  let z_bottom := min_pt.Z + 0.1
  let z_mid := (min_pt.Z + max_pt.Z) / 2
  let z_top := max_pt.Z - 0.1
  [(⟨center_x - right.X * half_width, center_y - right.Y * half_width,
      z_bottom⟩, 1.5),
   (⟨center_x, center_y, z_bottom⟩, 2.0),
   (⟨center_x + right.X * half_width, center_y + right.Y * half_width,
      z_bottom⟩, 1.5),
   (⟨center_x, center_y, z_mid⟩, 1.0),
   (⟨center_x, center_y, z_top⟩, 0.5)]

/-- Hemispherical ray-direction fan for sky sampling, mirroring
create_ray_directions (backend lines 197-248): 16 elevations times 9
azimuth offsets, each direction tagged with its elevation and azimuth in
degrees. -/
noncomputable def create_ray_directions (window_normal : Vec3) :
    List (Vec3 × ℚ × ℚ) :=
  let up : Vec3 := ⟨0, 0, 1⟩
  let forward := unitize window_normal
  let right0 := vcross forward up
  let right1 := if vlength right0 < 0.001 then (⟨0, 1, 0⟩ : Vec3) else right0
  let right := unitize right1
  let h_angles : List ℚ :=
    if 1 < HORIZONTAL_STEPS then
      (List.range HORIZONTAL_STEPS).map fun i =>
        -HORIZONTAL_SPREAD +
          2 * HORIZONTAL_SPREAD * (i : ℚ) / ((HORIZONTAL_STEPS : ℚ) - 1)
    else [0]
  (VERTICAL_ANGLES.map fun v_angle =>
    h_angles.map fun h_angle =>
      let h_dir := unitize (vadd (vsmul (Real.cos (radians h_angle)) forward)
        (vsmul (Real.sin (radians h_angle)) right))
      let direction := unitize (vadd (vsmul (Real.cos (radians v_angle)) h_dir)
        (vsmul (Real.sin (radians v_angle)) up))
      (direction, v_angle, h_angle)).flatten

/-- Ray indices of the hits whose distance lies in the valid context window
[MIN_RAY_DISTANCE, MAX_CONTEXT_DISTANCE), mirroring the valid_mask step of
cast_rays_for_context. -/
def valid_context_hits (hits : List (ℕ × ℚ)) : List ℕ :=
  (hits.filter fun h =>
    decide (MIN_RAY_DISTANCE ≤ h.2) && decide (h.2 < MAX_CONTEXT_DISTANCE)).map
    fun h => h.1

/-- Maximum tested elevation among the valid hits of one sample point, 0 when
no ray registered a valid hit, mirroring the sample_max_angle step of
cast_rays_for_context.  Out-of-range ray indices (which the trimesh library
never produces) default to angle 0. -/
def sample_max_angle (angles : List ℚ) (hits : List (ℕ × ℚ)) : ℚ :=
  listMax ((valid_context_hits hits).map fun i => angles.getD i 0)

/-- Context ray caster, mirroring cast_rays_for_context (backend lines
250-324, identical in the service variant): per sample point the maximum
validly-hit elevation, aggregated as 0.7 times the weighted average plus
0.3 times the absolute maximum, with 0 for a missing or face-free context
mesh, an empty sample list, or a non-positive total weight. -/
def cast_rays_for_context
    (raycast : Trimesh → List Point3 → List Vec3 → List (ℕ × ℚ))
    (sample_points : List (Point3 × ℚ)) (ray_directions : List (Vec3 × ℚ × ℚ))
    (context_trimesh : Option Trimesh) : ℚ :=
  match context_trimesh with
  | none => 0
  | some tm =>
    if tm.faces.isEmpty then 0
    else
      let angles := ray_directions.map fun d => d.2.1
      let sample_results := sample_points.map fun s =>
        (sample_max_angle angles
          (raycast tm (ray_directions.map fun _ => s.1)
            (ray_directions.map fun d => d.1)), s.2)
      if sample_results.isEmpty then 0
      else
        let total_weight := (sample_results.map fun r => r.2).sum
        let weighted_sum := (sample_results.map fun r => r.1 * r.2).sum
        if 0 < total_weight then
          weighted_sum / total_weight * 0.7 +
            listMax (sample_results.map fun r => r.1) * 0.3
        else 0

/-- Elevation angles tested by the service shading ray caster, mirroring
list(range(5, 86, 5)). -/
def shading_test_angles : List ℚ :=
  [5, 10, 15, 20, 25, 30, 35, 40, 45, 50, 55, 60, 65, 70, 75, 80, 85]

/-- Shading ray caster of the service variant, mirroring
cast_rays_for_shading (service lines 274-335): with no shading mesh it
returns elevation 90 and ho ratio 0; otherwise it casts one ray per test
elevation from the bottom-center reference point along the window normal,
keeps the lowest validly-hit elevation with its hit distance, and derives
ho as the horizontal projection depth over the window height. -/
noncomputable def cast_rays_for_shading
    (raycast : Trimesh → List Point3 → List Vec3 → List (ℕ × ℚ))
    (window_center : Point3) (window_normal : Vec3) (window_bbox : BBox)
    (shading_trimesh : Option Trimesh) : ℚ × ℝ :=
  match shading_trimesh with
  | none => (90, 0)
  | some tm =>
    let window_height := window_bbox.Max.Z - window_bbox.Min.Z
    let ref_point : Point3 := ⟨(window_bbox.Min.X + window_bbox.Max.X) / 2,
      (window_bbox.Min.Y + window_bbox.Max.Y) / 2, window_bbox.Min.Z + 0.1⟩
    let up : Vec3 := ⟨0, 0, 1⟩
    let forward := unitize window_normal
    let dirs := shading_test_angles.map fun v =>
      unitize (vadd (vsmul (Real.cos (radians v)) forward)
        (vsmul (Real.sin (radians v)) up))
    let origins := shading_test_angles.map fun _ => ref_point
    let hits := raycast tm origins dirs
    let res := hits.foldl (fun (acc : ℚ × ℚ) h =>
      if MIN_RAY_DISTANCE ≤ h.2 ∧ h.2 < MAX_SHADING_DISTANCE then
        let angle := shading_test_angles.getD h.1 90
        if angle < acc.1 then (angle, h.2) else acc
      else acc) (90, 0)
    let min_blocked_angle := res.1
    let hit_distance := res.2
    let ho_ratio : ℝ :=
      if min_blocked_angle < 90 then
        if 0 < window_height then
          (hit_distance : ℝ) * Real.cos (radians min_blocked_angle) /
            window_height
        else 0
      else 0
    (min_blocked_angle, ho_ratio)

/-- Elevation angles tested by the backend shading ray caster, mirroring
list(range(85, 4, -5)). -/
def backend_check_elevations : List ℚ :=
  [85, 80, 75, 70, 65, 60, 55, 50, 45, 40, 35, 30, 25, 20, 15, 10, 5]

/-- Shading ray caster of the backend variant, mirroring
cast_rays_for_shading (backend lines 326-444): with no shading mesh or a
face-free one it returns (0, 0) in the angle-from-zenith convention;
otherwise it scans elevations from 85 down to 5 degrees from the window
center, takes the lowest hit elevation (hit distances are not filtered in
this variant), and returns 90 minus that elevation together with the raw
tangent of the elevation as ho ratio. -/
noncomputable def cast_rays_for_shading_backend
    (raycast : Trimesh → List Point3 → List Vec3 → List (ℕ × ℚ))
    (window_center : Point3) (window_normal : Vec3) (window_bbox : BBox)
    (shading_trimesh : Option Trimesh) : ℚ × ℝ :=
  match shading_trimesh with
  | none => (0, 0)
  | some tm =>
    if tm.faces.isEmpty then (0, 0)
    else
      let ref_point := window_center
      let forward := unitize window_normal
      let dirs := backend_check_elevations.map fun elev =>
        unitize ⟨forward.X * Real.cos (radians elev),
          forward.Y * Real.cos (radians elev),
          forward.Z * Real.cos (radians elev) + Real.sin (radians elev)⟩
      let origins := backend_check_elevations.map fun _ => ref_point
      let hits := raycast tm origins dirs
      let min_blocked_elevation : ℚ :=
        if hits.isEmpty then 90
        else backend_check_elevations.getD (listMaxNat (hits.map fun h => h.1)) 90
      let shd_angle_from_zenith := 90 - min_blocked_elevation
      let ho_ratio := Real.tan (radians min_blocked_elevation)
      (shd_angle_from_zenith, ho_ratio)

/-- Context geometry item: a converted trimesh, its Rhino bounding box and
the original input index, mirroring the (mesh, bbox, idx) tuples built by
the geometry conversion step. -/
structure ContextItem where
  mesh : Trimesh
  bbox : BBox
  idx : ℕ

/-- X coordinate of the center of a bounding box. -/
noncomputable def bbox_center_x (b : BBox) : ℝ := (b.Min.X + b.Max.X) / 2

/-- Y coordinate of the center of a bounding box. -/
noncomputable def bbox_center_y (b : BBox) : ℝ := (b.Min.Y + b.Max.Y) / 2

/-- Visibility test of one context item against one window, mirroring the
loop body of filter_context_for_window (backend lines 463-500): reject when
the horizontal dot product with the window normal falls below minus half
the bounding-box diagonal, when the squared horizontal distance exceeds the
squared maximum context distance, or when the bounding-box top lies below
the window bottom. -/
noncomputable def context_item_passes (item : ContextItem)
    (window_center : Point3) (window_normal : Vec3) (window_bbox : BBox) :
    Bool :=
  let cx := bbox_center_x item.bbox
  let cy := bbox_center_y item.bbox
  let to_geo_x := cx - window_center.X
  let to_geo_y := cy - window_center.Y
  let dot := to_geo_x * window_normal.X + to_geo_y * window_normal.Y
  let diag_x := item.bbox.Max.X - item.bbox.Min.X
  let diag_y := item.bbox.Max.Y - item.bbox.Min.Y
  let diag_z := item.bbox.Max.Z - item.bbox.Min.Z
  let diag_len := Real.sqrt (diag_x * diag_x + diag_y * diag_y
    + diag_z * diag_z)
  let half_diagonal := diag_len * 0.5
  if dot < -half_diagonal then false
  else
    let dist_sq := to_geo_x * to_geo_x + to_geo_y * to_geo_y
    if (MAX_CONTEXT_DISTANCE : ℝ) * (MAX_CONTEXT_DISTANCE : ℝ) < dist_sq then
      false
    else if item.bbox.Max.Z < window_bbox.Min.Z then false
    else true

/-- Context prefilter, mirroring filter_context_for_window (backend lines
450-502): keeps exactly the items that pass the per-item visibility test,
with an early return for an empty context list. -/
noncomputable def filter_context_for_window (context_data : List ContextItem)
    (window_center : Point3) (window_normal : Vec3) (window_bbox : BBox) :
    List ContextItem :=
  if context_data.isEmpty then []
  else context_data.filter fun item =>
    context_item_passes item window_center window_normal window_bbox

/-- Concatenation of several trimeshes into one, mirroring
trimesh.util.concatenate: vertex lists are appended and face indices are
offset by the cumulative vertex counts. -/
def trimesh_concatenate (ms : List Trimesh) : Trimesh :=
  ms.foldl (fun acc m =>
    let off := acc.vertices.length
    ⟨acc.vertices ++ m.vertices,
      acc.faces ++ m.faces.map fun f => (f.1 + off, f.2.1 + off, f.2.2 + off)⟩)
    ⟨[], []⟩

/-- Tabel 17.4 of the internal variant (Overstek_Belemmering_GH.py lines
224-272): monthly Fsh values for minimal obstruction, keyed by orientation.
Months outside 1-12 give the empty association list, matching the
dict .get(month, {}) default. -/
def TABEL_17_4 : ℕ → List (String × ℚ)
  | 1 => [("Zuid", 0.23), ("Oost", 0.49), ("Zuid Oost", 0.92),
          ("Noord", 0.48), ("Noord Oost", 1.0), ("West", 1.0),
          ("Noord West", 0.85)]
  | 2 => [("Zuid", 0.91), ("Oost", 0.83), ("Zuid Oost", 0.79),
          ("Noord", 0.81), ("Noord Oost", 1.0), ("West", 0.96),
          ("Noord West", 0.85)]
  | 3 => [("Zuid", 1.0), ("Oost", 0.93), ("Zuid Oost", 0.82),
          ("Noord", 0.87), ("Noord Oost", 1.0), ("West", 0.97),
          ("Noord West", 0.89)]
  | 4 => [("Zuid", 1.0), ("Oost", 0.92), ("Zuid Oost", 0.91),
          ("Noord", 0.95), ("Noord Oost", 0.99), ("West", 0.97),
          ("Noord West", 0.82)]
  | 5 => [("Zuid", 1.0), ("Oost", 0.99), ("Zuid Oost", 0.95),
          ("Noord", 1.0), ("Noord Oost", 0.97), ("West", 0.88),
          ("Noord West", 0.88)]
  | 6 => [("Zuid", 1.0), ("Oost", 1.0), ("Zuid Oost", 0.9),
          ("Noord", 1.0), ("Noord Oost", 0.97), ("West", 0.91),
          ("Noord West", 0.93)]
  | 7 => [("Zuid", 1.0), ("Oost", 1.0), ("Zuid Oost", 0.93),
          ("Noord", 0.99), ("Noord Oost", 0.97), ("West", 0.91),
          ("Noord West", 0.92)]
  | 8 => [("Zuid", 1.0), ("Oost", 0.99), ("Zuid Oost", 0.94),
          ("Noord", 0.98), ("Noord Oost", 0.98), ("West", 0.98),
          ("Noord West", 0.89)]
  | 9 => [("Zuid", 1.0), ("Oost", 0.91), ("Zuid Oost", 0.87),
          ("Noord", 0.92), ("Noord Oost", 1.0), ("West", 0.97),
          ("Noord West", 0.85)]
  | 10 => [("Zuid", 0.97), ("Oost", 0.88), ("Zuid Oost", 0.84),
           ("Noord", 0.86), ("Noord Oost", 1.0), ("West", 0.96),
           ("Noord West", 0.83)]
  | 11 => [("Zuid", 0.61), ("Oost", 0.71), ("Zuid Oost", 0.92),
           ("Noord", 0.7), ("Noord Oost", 1.0), ("West", 0.98),
           ("Noord West", 0.9)]
  | 12 => [("Zuid", 0.19), ("Oost", 0.58), ("Zuid Oost", 0.86),
           ("Noord", 0.4), ("Noord Oost", 1.0), ("West", 1.0),
           ("Noord West", 0.87)]
  | _ => []

/-- Tabel 17.7 of the internal variant (Overstek_Belemmering_GH.py lines
286-395): monthly Fsh values for significant obstruction, keyed by
orientation and then by ho category. -/
def TABEL_17_7 : ℕ → List (String × List (String × ℚ))
  | 1 => [("Zuid", [("<0.5", 0.19), ("0.5-1.0", 0.19), (">=1.0", 0.19)]),
          ("Oost", [("<0.5", 0.45), ("0.5-1.0", 0.24), (">=1.0", 0.24)]),
          ("Zuid Oost", [("<0.5", 0.8), ("0.5-1.0", 0.55), (">=1.0", 0.55)]),
          ("Noord", [("<0.5", 0.44), ("0.5-1.0", 0.25), (">=1.0", 0.25)]),
          ("Noord Oost", [("<0.5", 1.0), ("0.5-1.0", 1.0), (">=1.0", 1.0)]),
          ("West", [("<0.5", 1.0), ("0.5-1.0", 1.0), (">=1.0", 1.0)]),
          ("Noord West", [("<0.5", 0.75), ("0.5-1.0", 0.49), (">=1.0", 0.49)])]
  | 2 => [("Zuid", [("<0.5", 0.6), ("0.5-1.0", 0.3), (">=1.0", 0.3)]),
          ("Oost", [("<0.5", 0.66), ("0.5-1.0", 0.51), (">=1.0", 0.38)]),
          ("Zuid Oost", [("<0.5", 0.79), ("0.5-1.0", 0.68), (">=1.0", 0.54)]),
          ("Noord", [("<0.5", 0.59), ("0.5-1.0", 0.44), (">=1.0", 0.35)]),
          ("Noord Oost", [("<0.5", 1.0), ("0.5-1.0", 1.0), (">=1.0", 1.0)]),
          ("West", [("<0.5", 0.94), ("0.5-1.0", 0.91), (">=1.0", 0.91)]),
          ("Noord West", [("<0.5", 0.85), ("0.5-1.0", 0.72), (">=1.0", 0.61)])]
  | 3 => [("Zuid", [("<0.5", 0.95), ("0.5-1.0", 0.43), (">=1.0", 0.35)]),
          ("Oost", [("<0.5", 0.83), ("0.5-1.0", 0.53), (">=1.0", 0.41)]),
          ("Zuid Oost", [("<0.5", 0.75), ("0.5-1.0", 0.7), (">=1.0", 0.53)]),
          ("Noord", [("<0.5", 0.79), ("0.5-1.0", 0.48), (">=1.0", 0.38)]),
          ("Noord Oost", [("<0.5", 1.0), ("0.5-1.0", 1.0), (">=1.0", 1.0)]),
          ("West", [("<0.5", 0.93), ("0.5-1.0", 0.85), (">=1.0", 0.82)]),
          ("Noord West", [("<0.5", 0.8), ("0.5-1.0", 0.73), (">=1.0", 0.57)])]
  | 4 => [("Zuid", [("<0.5", 1.0), ("0.5-1.0", 0.76), (">=1.0", 0.36)]),
          ("Oost", [("<0.5", 0.84), ("0.5-1.0", 0.56), (">=1.0", 0.38)]),
          ("Zuid Oost", [("<0.5", 0.82), ("0.5-1.0", 0.66), (">=1.0", 0.5)]),
          ("Noord", [("<0.5", 0.89), ("0.5-1.0", 0.58), (">=1.0", 0.39)]),
          ("Noord Oost", [("<0.5", 0.97), ("0.5-1.0", 0.97), (">=1.0", 0.97)]),
          ("West", [("<0.5", 0.97), ("0.5-1.0", 0.88), (">=1.0", 0.75)]),
          ("Noord West", [("<0.5", 0.74), ("0.5-1.0", 0.54), (">=1.0", 0.43)])]
  | 5 => [("Zuid", [("<0.5", 1.0), ("0.5-1.0", 1.0), (">=1.0", 0.46)]),
          ("Oost", [("<0.5", 0.95), ("0.5-1.0", 0.75), (">=1.0", 0.44)]),
          ("Zuid Oost", [("<0.5", 0.89), ("0.5-1.0", 0.71), (">=1.0", 0.54)]),
          ("Noord", [("<0.5", 0.99), ("0.5-1.0", 0.82), (">=1.0", 0.47)]),
          ("Noord Oost", [("<0.5", 0.96), ("0.5-1.0", 0.91), (">=1.0", 0.91)]),
          ("West", [("<0.5", 0.89), ("0.5-1.0", 0.88), (">=1.0", 0.74)]),
          ("Noord West", [("<0.5", 0.83), ("0.5-1.0", 0.62), (">=1.0", 0.47)])]
  | 6 => [("Zuid", [("<0.5", 1.0), ("0.5-1.0", 1.0), (">=1.0", 0.56)]),
          ("Oost", [("<0.5", 0.99), ("0.5-1.0", 0.85), (">=1.0", 0.49)]),
          ("Zuid Oost", [("<0.5", 0.89), ("0.5-1.0", 0.71), (">=1.0", 0.53)]),
          ("Noord", [("<0.5", 0.99), ("0.5-1.0", 0.88), (">=1.0", 0.53)]),
          ("Noord Oost", [("<0.5", 0.94), ("0.5-1.0", 0.86), (">=1.0", 0.84)]),
          ("West", [("<0.5", 0.81), ("0.5-1.0", 0.79), (">=1.0", 0.66)]),
          ("Noord West", [("<0.5", 0.86), ("0.5-1.0", 0.66), (">=1.0", 0.49)])]
  | 7 => [("Zuid", [("<0.5", 1.0), ("0.5-1.0", 1.0), (">=1.0", 0.56)]),
          ("Oost", [("<0.5", 0.99), ("0.5-1.0", 0.82), (">=1.0", 0.43)]),
          ("Zuid Oost", [("<0.5", 0.87), ("0.5-1.0", 0.69), (">=1.0", 0.54)]),
          ("Noord", [("<0.5", 0.99), ("0.5-1.0", 0.83), (">=1.0", 0.51)]),
          ("Noord Oost", [("<0.5", 0.95), ("0.5-1.0", 0.9), (">=1.0", 0.89)]),
          ("West", [("<0.5", 0.85), ("0.5-1.0", 0.84), (">=1.0", 0.71)]),
          ("Noord West", [("<0.5", 0.88), ("0.5-1.0", 0.71), (">=1.0", 0.55)])]
  | 8 => [("Zuid", [("<0.5", 1.0), ("0.5-1.0", 0.95), (">=1.0", 0.42)]),
          ("Oost", [("<0.5", 0.91), ("0.5-1.0", 0.67), (">=1.0", 0.4)]),
          ("Zuid Oost", [("<0.5", 0.9), ("0.5-1.0", 0.72), (">=1.0", 0.57)]),
          ("Noord", [("<0.5", 0.95), ("0.5-1.0", 0.74), (">=1.0", 0.46)]),
          ("Noord Oost", [("<0.5", 0.98), ("0.5-1.0", 0.96), (">=1.0", 0.96)]),
          ("West", [("<0.5", 0.96), ("0.5-1.0", 0.92), (">=1.0", 0.87)]),
          ("Noord West", [("<0.5", 0.8), ("0.5-1.0", 0.77), (">=1.0", 0.66)])]
  | 9 => [("Zuid", [("<0.5", 0.99), ("0.5-1.0", 0.55), (">=1.0", 0.34)]),
          ("Oost", [("<0.5", 0.84), ("0.5-1.0", 0.54), (">=1.0", 0.39)]),
          ("Zuid Oost", [("<0.5", 0.77), ("0.5-1.0", 0.67), (">=1.0", 0.51)]),
          ("Noord", [("<0.5", 0.84), ("0.5-1.0", 0.5), (">=1.0", 0.38)]),
          ("Noord Oost", [("<0.5", 1.0), ("0.5-1.0", 1.0), (">=1.0", 1.0)]),
          ("West", [("<0.5", 0.95), ("0.5-1.0", 0.87), (">=1.0", 0.8)]),
          ("Noord West", [("<0.5", 0.77), ("0.5-1.0", 0.66), (">=1.0", 0.53)])]
  | 10 => [("Zuid", [("<0.5", 0.82), ("0.5-1.0", 0.3), (">=1.0", 0.28)]),
           ("Oost", [("<0.5", 0.74), ("0.5-1.0", 0.42), (">=1.0", 0.35)]),
           ("Zuid Oost", [("<0.5", 0.75), ("0.5-1.0", 0.71), (">=1.0", 0.52)]),
           ("Noord", [("<0.5", 0.7), ("0.5-1.0", 0.5), (">=1.0", 0.33)]),
           ("Noord Oost", [("<0.5", 1.0), ("0.5-1.0", 1.0), (">=1.0", 1.0)]),
           ("West", [("<0.5", 0.95), ("0.5-1.0", 0.9), (">=1.0", 0.91)]),
           ("Noord West", [("<0.5", 0.76), ("0.5-1.0", 0.75), (">=1.0", 0.57)])]
  | 11 => [("Zuid", [("<0.5", 0.24), ("0.5-1.0", 0.24), (">=1.0", 0.24)]),
           ("Oost", [("<0.5", 0.46), ("0.5-1.0", 0.34), (">=1.0", 0.31)]),
           ("Zuid Oost", [("<0.5", 0.89), ("0.5-1.0", 0.6), (">=1.0", 0.58)]),
           ("Noord", [("<0.5", 0.56), ("0.5-1.0", 0.38), (">=1.0", 0.3)]),
           ("Noord Oost", [("<0.5", 1.0), ("0.5-1.0", 1.0), (">=1.0", 1.0)]),
           ("West", [("<0.5", 0.98), ("0.5-1.0", 0.98), (">=1.0", 0.98)]),
           ("Noord West", [("<0.5", 0.87), ("0.5-1.0", 0.74), (">=1.0", 0.62)])]
  | 12 => [("Zuid", [("<0.5", 0.19), ("0.5-1.0", 0.19), (">=1.0", 0.19)]),
           ("Oost", [("<0.5", 0.54), ("0.5-1.0", 0.26), (">=1.0", 0.26)]),
           ("Zuid Oost", [("<0.5", 0.71), ("0.5-1.0", 0.55), (">=1.0", 0.55)]),
           ("Noord", [("<0.5", 0.38), ("0.5-1.0", 0.25), (">=1.0", 0.25)]),
           ("Noord Oost", [("<0.5", 1.0), ("0.5-1.0", 1.0), (">=1.0", 1.0)]),
           ("West", [("<0.5", 1.0), ("0.5-1.0", 1.0), (">=1.0", 1.0)]),
           ("Noord West", [("<0.5", 0.79), ("0.5-1.0", 0.61), (">=1.0", 0.61)])]
  | _ => []

/-- Table part of the legacy Fsh lookup (internal lines 1208-1215, service
lines 357-361): Minimale Belemmering reads Tabel 17.4 by month and
orientation, anything else reads Tabel 17.7 by month, orientation and ho
category, both defaulting to 1.0 on a missing key. -/
noncomputable def lookup_fsh_base (classification orientation : String)
    (month : ℕ) (ho_ratio : ℝ) : ℚ :=
  if classification = "Minimale Belemmering" then
    ((TABEL_17_4 month).lookup orientation).getD 1
  else
    ((((TABEL_17_7 month).lookup orientation).getD []).lookup
      (get_ho_category ho_ratio)).getD 1

/-- Legacy Fsh lookup of the internal and service variants, mirroring
lookup_fsh_factor (internal lines 1174-1215, service lines 351-361): the
orientation Zuid West, absent from the authored tables, resolves to the
arithmetic mean of the Zuid and West lookups for the same classification,
month and ho ratio; every other orientation reads the tables directly. -/
noncomputable def lookup_fsh_factor (classification orientation : String)
    (month : ℕ) (ho_ratio : ℝ) : ℚ :=
  if orientation = "Zuid West" then
    (lookup_fsh_base classification "Zuid" month ho_ratio +
      lookup_fsh_base classification "West" month ho_ratio) / 2
  else lookup_fsh_base classification orientation month ho_ratio

/-- Modelled from the spec: entry of a static regulatory table of the
backend variant.  The module backend/core/nen5060_tables.py (TABEL_17_4,
17_5, 17_6, 17_7, 17_8 and 17_9) is not part of the source tree; per spec
section 3 a table entry is either a scalar Fsh value (minimal-obstruction
tables) or a further map keyed by ho category. -/
inductive TableEntry where
  | scalar (v : ℚ)
  | byCategory (d : String → Option ℚ)

/-- Modelled from the spec: the six static tables of the backend variant,
kept abstract because their data lives in the missing nen5060_tables
module.  Each table maps a month and an orientation to an optional
entry. -/
structure FshTables where
  t17_4 : ℕ → String → Option TableEntry
  t17_5 : ℕ → String → Option TableEntry
  t17_6 : ℕ → String → Option TableEntry
  t17_7 : ℕ → String → Option TableEntry
  t17_8 : ℕ → String → Option TableEntry
  t17_9 : ℕ → String → Option TableEntry

/-- Backend Fsh lookup, mirroring lookup_fsh_factor (backend lines
518-560): the calculation type selects a table per classification (heating
H by default, cooling C, solar P, and the heating set as fallback), and the
lookup then proceeds by month and orientation for Minimale Belemmering and
additionally by ho category otherwise, defaulting to 1.0 on a missing key.
A mismatched entry kind defaults to 1.0 as well, per the spec-mandated
default (the concrete table data is not in the source tree). -/
noncomputable def lookup_fsh_factor_backend (t : FshTables)
    (classification orientation : String) (month : ℕ) (ho_ratio : ℝ)
    (calc_type : String) : ℚ :=
  let pick : (ℕ → String → Option TableEntry) ×
      (ℕ → String → Option TableEntry) × (ℕ → String → Option TableEntry) :=
    if calc_type = "H" then (t.t17_4, t.t17_8, t.t17_7)
    else if calc_type = "C" then (t.t17_5, t.t17_9, t.t17_5)
    else if calc_type = "P" then (t.t17_6, t.t17_6, t.t17_6)
    else (t.t17_4, t.t17_8, t.t17_7)
  let selected :=
    if classification = "Minimale Belemmering" then pick.1
    else if classification = "Overstek" then pick.2.1
    else pick.2.2
  if classification = "Minimale Belemmering" then
    match selected month orientation with
    | some (TableEntry.scalar v) => v
    | _ => 1
  else
    match selected month orientation with
    | some (TableEntry.byCategory d) => (d (get_ho_category ho_ratio)).getD 1
    | _ => 1

/-- Classification decision of the service variant, mirroring step 5 of
classify_window_logic (service lines 395-413).  Inputs are the aggregated
context elevation angle, the shading elevation angle returned by the
service shading caster, the shading ho ratio and whether a shading trimesh
is present; the output is the classification, the final ho ratio and the
dominant-factor tag. -/
noncomputable def classify_decision_service (ctx_angle shd_angle : ℚ)
    (shd_ho : ℝ) (shading_present : Bool) : String × ℝ × String :=
  let ctx_blocked := ctx_angle
  let shd_blocked := 90 - shd_angle
  let ctx_sig := MINIMAL_OBSTRUCTION_THRESHOLD < ctx_blocked
  let shd_sig := MINIMAL_OBSTRUCTION_THRESHOLD < shd_blocked ∧
    shading_present = true
  if ¬ctx_sig ∧ ¬shd_sig then ("Minimale Belemmering", 0, "Neither")
  else if shd_sig ∧ (¬ctx_sig ∨ ctx_blocked ≤ shd_blocked) then
    ("Overstek", shd_ho, "Shading")
  else ("Belemmering", angle_to_ho_ratio_approximation ctx_angle, "Context")

/-- Classification decision of the backend variant, mirroring step 5 of
classify_window_logic (backend lines 602-658).  The second argument is the
angle from zenith returned by the backend shading caster; shd_blocked is
therefore the elevation of the overhang bottom.  Shading is significant
only when an overhang exists (shading mesh supplied and elevation below
89 degrees) and the elevation lies below the 45 degree overhang threshold;
when both factors are significant the shading wins only if its blocked sky
(90 minus elevation) strictly exceeds the context elevation. -/
noncomputable def classify_decision_backend (ctx_angle shd_angle_from_zenith : ℚ)
    (shd_ho : ℝ) (shading_present : Bool) : String × ℝ × String :=
  let ctx_blocked := ctx_angle
  let shd_blocked := 90 - shd_angle_from_zenith
  let ctx_sig := CONTEXT_THRESHOLD < ctx_blocked
  let has_overhang := shading_present = true ∧ shd_blocked < 89
  let shd_sig := has_overhang ∧ shd_blocked < OVERHANG_THRESHOLD
  if ctx_sig ∧ shd_sig then
    if ctx_blocked < 90 - shd_blocked then ("Overstek", shd_ho, "Shading")
    else ("Belemmering", angle_to_ho_ratio_approximation ctx_angle, "Context")
  else if shd_sig then ("Overstek", shd_ho, "Shading")
  else if ctx_sig then
    ("Belemmering", angle_to_ho_ratio_approximation ctx_angle, "Context")
  else ("Minimale Belemmering", 0, "Neither")

/-- Rounding of a rational to 3 decimal places, modelling the round(x, 3)
calls on the result record.  Python rounds floats half to even on the
underlying binary value; no stated claim depends on the behaviour at exact
ties, so the Mathlib round is used. -/
def pyRound3 (x : ℚ) : ℚ := (round (x * 1000) : ℤ) / 1000

/-- Rounding of a rational to 1 decimal place, modelling round(x, 1). -/
def pyRound1 (x : ℚ) : ℚ := (round (x * 10) : ℤ) / 10

/-- Rounding of a real to 3 decimal places, modelling round(x, 3). -/
noncomputable def pyRound3R (x : ℝ) : ℝ := ((round (x * 1000) : ℤ) : ℝ) / 1000

/-- Per-window classification result record of the backend variant (the
debug_info string, pure logging, is omitted). -/
structure ClassifyResult where
  classification : String
  fsh_factor : ℚ
  orientation : String
  ho_ratio : ℝ
  context_angle : ℚ
  shading_angle : ℚ
  context_blocked : ℚ
  shading_blocked : ℚ
  dominant_factor : String

/-- Per-window entry point of the backend variant, mirroring
classify_window_logic (backend lines 566-684): an invalid window mesh
returns the fixed Error record immediately; otherwise the pipeline derives
orientation, rays and sample points, prefilters and concatenates the
context, casts context and shading rays, applies the classification
decision and the table lookup, and assembles the rounded result record. -/
noncomputable def classify_window_logic (lib : TrimeshLib) (t : FshTables)
    (window_mesh shading_mesh : Option RhinoMesh)
    (context_data : List ContextItem) (month : ℕ) (calc_type : String) :
    ClassifyResult :=
  match get_mesh_center_and_normal lib window_mesh with
  | none =>
    { classification := "Error", fsh_factor := 1, orientation := "Unknown",
      ho_ratio := 0, context_angle := 0, shading_angle := 90,
      context_blocked := 0, shading_blocked := 0, dominant_factor := "Error" }
  | some props =>
    let orientation := vector_to_compass_orientation props.normal
    let ray_directions := create_ray_directions props.normal
    let sample_points := get_window_sample_points props.bbox props.normal
    let relevant_context := filter_context_for_window context_data
      props.center props.normal props.bbox
    let combined_context : Option Trimesh :=
      if relevant_context.isEmpty then none
      else some (trimesh_concatenate (relevant_context.map fun i => i.mesh))
    let ctx_angle := cast_rays_for_context lib.raycast sample_points
      ray_directions combined_context
    let shd := cast_rays_for_shading_backend lib.raycast props.center
      props.normal props.bbox (rhino_mesh_to_trimesh shading_mesh)
    let dec := classify_decision_backend ctx_angle shd.1 shd.2
      shading_mesh.isSome
    let fsh := lookup_fsh_factor_backend t dec.1 orientation month dec.2.1
      calc_type
    { classification := dec.1, fsh_factor := pyRound3 fsh,
      orientation := orientation, ho_ratio := pyRound3R dec.2.1,
      context_angle := pyRound1 ctx_angle, shading_angle := pyRound1 shd.1,
      context_blocked := pyRound1 ctx_angle,
      shading_blocked := pyRound1 (90 - shd.1),
      dominant_factor := dec.2.2 }

/-- Aggregation formula of the context ray caster as worded by the spec:
0.7 times the weight-averaged per-sample maximum plus 0.3 times the
absolute maximum over the samples.  The input pairs each per-sample maximum
blocked elevation with its sample weight. -/
def context_aggregate_from_spec (sample_maxima : List (ℚ × ℚ)) : ℚ :=
  0.7 * ((sample_maxima.map fun r => r.1 * r.2).sum /
    (sample_maxima.map fun r => r.2).sum) +
  0.3 * listMax (sample_maxima.map fun r => r.1)

/-- C9: the ho-category lower bounds are inclusive: a ho ratio of exactly
0.5 maps to the category 0.5-1.0 and a ho ratio of exactly 1.0 maps to the
category >=1.0. -/
theorem ho_category_boundaries :
    get_ho_category (0.5 : ℝ) = "0.5-1.0" ∧
    get_ho_category (1.0 : ℝ) = ">=1.0" := by
  constructor
  · unfold get_ho_category
    rw [if_neg (by norm_num), if_pos (by norm_num)]
  · unfold get_ho_category
    rw [if_neg (by norm_num), if_neg (by norm_num)]

/-- C7: in the legacy table lookup, the Fsh value for the orientation
Zuid West equals the arithmetic mean of the Zuid and West lookups for the
same classification, month and ho ratio (hence the same ho category). -/
theorem lookup_fsh_zuid_west_mean (classification : String) (month : ℕ)
    (ho_ratio : ℝ) :
    lookup_fsh_factor classification "Zuid West" month ho_ratio =
      (lookup_fsh_factor classification "Zuid" month ho_ratio +
        lookup_fsh_factor classification "West" month ho_ratio) / 2 := by
  unfold lookup_fsh_factor
  rw [if_pos rfl, if_neg (by decide), if_neg (by decide)]

/-- C4: with no shading mesh the service shading ray caster returns
elevation 90 and ho ratio 0 for every window center, normal and bounding
box and every behaviour of the intersector, so the derived shading_blocked
value 90 minus elevation is 0. -/
theorem shading_caster_no_mesh
    (raycast : Trimesh → List Point3 → List Vec3 → List (ℕ × ℚ))
    (window_center : Point3) (window_normal : Vec3) (window_bbox : BBox) :
    cast_rays_for_shading raycast window_center window_normal window_bbox
        none = (90, 0) ∧
    90 - (cast_rays_for_shading raycast window_center window_normal
        window_bbox none).1 = 0 := by
  constructor
  · rfl
  · norm_num [cast_rays_for_shading]

/-- C1: the tangent-based ho approximation is not clamped to [0, 2]
between 0 and 89 degrees: at the reachable context elevation of 80 degrees
it returns tan(80 degrees), which exceeds 2, contradicting the documented
invariant that ho_ratio always lies in [0, 2]. -/
theorem ho_approximation_exceeds_two :
    2 < angle_to_ho_ratio_approximation 80 := by
  unfold angle_to_ho_ratio_approximation radians
  rw [if_neg (by norm_num), if_neg (by norm_num)]
  have h80 : ((80 : ℚ) : ℝ) * Real.pi / 180 = Real.pi / 2 - Real.pi / 18 := by
    push_cast
    ring
  rw [h80, Real.tan_eq_sin_div_cos, Real.sin_pi_div_two_sub,
    Real.cos_pi_div_two_sub]
  have hπu : Real.pi < 3.15 := Real.pi_lt_d2
  have hπl : 3 < Real.pi := Real.pi_gt_three
  have hs_pos : 0 < Real.sin (Real.pi / 18) :=
    Real.sin_pos_of_pos_of_lt_pi (by positivity) (by linarith)
  rw [lt_div_iff₀ hs_pos]
  have hsin : Real.sin (Real.pi / 18) < Real.pi / 18 :=
    Real.sin_lt (by positivity)
  have hcos : 1 - (Real.pi / 18) ^ 2 / 2 ≤ Real.cos (Real.pi / 18) :=
    Real.one_sub_sq_div_two_le_cos
  nlinarith [hsin, hcos, hπu, hπl, sq_nonneg (Real.pi / 18)]

/-- C2 counterexample: on the backend decision an exact tie between context
blockage and shading sky blockage with both factors significant yields
Belemmering (context obstruction), not Overstek.  The inputs encode a
context elevation of 50 degrees and a shading elevation of 40 degrees
(angle from zenith 50), so both block 50 degrees of sky. -/
theorem backend_tie_yields_context :
    (classify_decision_backend 50 50 0 true).1 = "Belemmering" ∧
    (classify_decision_backend 50 50 0 true).1 ≠ "Overstek" := by
  have h : (classify_decision_backend 50 50 0 true).1 = "Belemmering" := by
    unfold classify_decision_backend
    rw [if_pos, if_neg]
    · norm_num [CONTEXT_THRESHOLD, OVERHANG_THRESHOLD]
    · constructor
      · norm_num [CONTEXT_THRESHOLD]
      · refine ⟨⟨rfl, by norm_num⟩, by norm_num [OVERHANG_THRESHOLD]⟩
  exact ⟨h, by rw [h]; decide⟩

/-- C2 amended: in the service (and internal) decision, significant shading
beats context whenever context is not significant or blocks no more sky
than the shading does, ties included, yielding Overstek with the shading ho
ratio and dominant factor Shading; in the backend decision the comparison
is strict, so shading sky blockage less than or equal to the context
blockage with both factors significant yields Belemmering. -/
theorem classification_tie_favors_shading :
    (∀ (ctx_angle shd_angle : ℚ) (shd_ho : ℝ),
      MINIMAL_OBSTRUCTION_THRESHOLD < 90 - shd_angle →
      (¬(MINIMAL_OBSTRUCTION_THRESHOLD < ctx_angle) ∨
        ctx_angle ≤ 90 - shd_angle) →
      classify_decision_service ctx_angle shd_angle shd_ho true =
        ("Overstek", shd_ho, "Shading")) ∧
    (∀ (ctx_angle shd_angle_from_zenith : ℚ) (shd_ho : ℝ),
      CONTEXT_THRESHOLD < ctx_angle →
      90 - shd_angle_from_zenith < OVERHANG_THRESHOLD →
      shd_angle_from_zenith ≤ ctx_angle →
      (classify_decision_backend ctx_angle shd_angle_from_zenith shd_ho
        true).1 = "Belemmering") := by
  constructor
  · intro ctx_angle shd_angle shd_ho h1 h2
    unfold classify_decision_service
    rw [if_neg, if_pos]
    · exact ⟨⟨h1, rfl⟩, h2⟩
    · intro hcon
      exact hcon.2 ⟨h1, rfl⟩
  · intro ctx_angle z shd_ho h1 h2 h3
    unfold classify_decision_backend
    rw [if_pos, if_neg]
    · linarith
    · exact ⟨h1, ⟨rfl, by norm_num [OVERHANG_THRESHOLD] at h2 ⊢; linarith⟩, h2⟩

/-- C2 witness: concrete tie instances.  The service decision at context
elevation 50 and shading elevation 40 (both block 50 degrees) yields
Overstek; the backend decision at the same blockages yields Belemmering. -/
theorem classification_tie_witness :
    (MINIMAL_OBSTRUCTION_THRESHOLD < (90 : ℚ) - 40 ∧
      classify_decision_service 50 40 0 true = ("Overstek", 0, "Shading")) ∧
    (CONTEXT_THRESHOLD < (50 : ℚ) ∧ (90 : ℚ) - 50 < OVERHANG_THRESHOLD ∧
      (classify_decision_backend 50 50 0 true).1 = "Belemmering") :=
  ⟨⟨by norm_num [MINIMAL_OBSTRUCTION_THRESHOLD],
    classification_tie_favors_shading.1 50 40 0
      (by norm_num [MINIMAL_OBSTRUCTION_THRESHOLD])
      (Or.inr (by norm_num))⟩,
   ⟨by norm_num [CONTEXT_THRESHOLD],
    by norm_num [OVERHANG_THRESHOLD],
    classification_tie_favors_shading.2 50 50 0
      (by norm_num [CONTEXT_THRESHOLD])
      (by norm_num [OVERHANG_THRESHOLD]) (by norm_num)⟩⟩

theorem atan2_pos_x {y x : ℝ} (hx : 0 < x) : atan2 y x = Real.arctan (y / x) := by
  unfold atan2
  rw [if_pos hx]

theorem atan2_neg_x_nonneg_y {y x : ℝ} (hx : x < 0) (hy : 0 ≤ y) :
    atan2 y x = Real.arctan (y / x) + Real.pi := by
  unfold atan2
  rw [if_neg (by linarith), if_pos ⟨hx, hy⟩]

theorem atan2_neg_x_neg_y {y x : ℝ} (hx : x < 0) (hy : y < 0) :
    atan2 y x = Real.arctan (y / x) - Real.pi := by
  unfold atan2
  rw [if_neg (by linarith), if_neg (by intro hc; linarith [hc.2]),
    if_pos ⟨hx, hy⟩]

theorem atan2_zero_x_pos_y {y : ℝ} (hy : 0 < y) : atan2 y 0 = Real.pi / 2 := by
  unfold atan2
  rw [if_neg (lt_irrefl 0), if_neg (by intro hc; exact lt_irrefl 0 hc.1),
    if_neg (by intro hc; exact lt_irrefl 0 hc.1), if_pos ⟨rfl, hy⟩]

theorem atan2_zero_x_neg_y {y : ℝ} (hy : y < 0) :
    atan2 y 0 = -(Real.pi / 2) := by
  unfold atan2
  rw [if_neg (lt_irrefl 0), if_neg (by intro hc; exact lt_irrefl 0 hc.1),
    if_neg (by intro hc; exact lt_irrefl 0 hc.1),
    if_neg (by intro hc; linarith [hc.2]), if_pos ⟨rfl, hy⟩]

theorem atan2_zero_zero : atan2 0 0 = 0 := by
  unfold atan2
  rw [if_neg (lt_irrefl 0), if_neg (by intro hc; exact lt_irrefl 0 hc.1),
    if_neg (by intro hc; exact lt_irrefl 0 hc.1),
    if_neg (by intro hc; exact lt_irrefl 0 hc.2),
    if_neg (by intro hc; exact lt_irrefl 0 hc.2)]

theorem arctan_nonpos_of_nonpos {z : ℝ} (hz : z ≤ 0) : Real.arctan z ≤ 0 := by
  have := Real.arctan_strictMono.monotone hz
  rwa [Real.arctan_zero] at this

theorem arctan_pos_of_pos {z : ℝ} (hz : 0 < z) : 0 < Real.arctan z := by
  have := Real.arctan_strictMono hz
  rwa [Real.arctan_zero] at this

theorem arctan_neg_of_neg {z : ℝ} (hz : z < 0) : Real.arctan z < 0 := by
  have := Real.arctan_strictMono hz
  rwa [Real.arctan_zero] at this

/-- Range of the two-argument arctangent: values lie in (-pi, pi]. -/
theorem atan2_range (y x : ℝ) : -Real.pi < atan2 y x ∧ atan2 y x ≤ Real.pi := by
  have hπ := Real.pi_pos
  have hu := Real.arctan_lt_pi_div_two (y / x)
  have hl := Real.neg_pi_div_two_lt_arctan (y / x)
  rcases lt_trichotomy x 0 with hx | hx | hx
  · rcases le_or_lt 0 y with hy | hy
    · rw [atan2_neg_x_nonneg_y hx hy]
      have : Real.arctan (y / x) ≤ 0 :=
        arctan_nonpos_of_nonpos (div_nonpos_iff.mpr (Or.inl ⟨hy, hx.le⟩))
      constructor <;> linarith
    · rw [atan2_neg_x_neg_y hx hy]
      have : 0 < Real.arctan (y / x) :=
        arctan_pos_of_pos (div_pos_iff.mpr (Or.inr ⟨hy, hx⟩))
      constructor <;> linarith
  · subst hx
    rcases lt_trichotomy y 0 with hy | hy | hy
    · rw [atan2_zero_x_neg_y hy]
      constructor <;> linarith
    · subst hy
      rw [atan2_zero_zero]
      constructor <;> linarith
    · rw [atan2_zero_x_pos_y hy]
      constructor <;> linarith
  · rw [atan2_pos_x hx]
    constructor <;> linarith

/-- Antipode relation of the two-argument arctangent: negating both
arguments of a non-degenerate input shifts the angle by pi, downward from a
positive angle and upward otherwise. -/
theorem atan2_neg_neg {y x : ℝ} (h : ¬(y = 0 ∧ x = 0)) :
    atan2 (-y) (-x) =
      if 0 < atan2 y x then atan2 y x - Real.pi else atan2 y x + Real.pi := by
  have hπ := Real.pi_pos
  have hu := Real.arctan_lt_pi_div_two (y / x)
  have hl := Real.neg_pi_div_two_lt_arctan (y / x)
  have hdiv : (-y) / (-x) = y / x := by
    rw [neg_div_neg_eq]
  rcases lt_trichotomy x 0 with hx | hx | hx
  · have hx2 : 0 < -x := by linarith
    rw [atan2_pos_x hx2, hdiv]
    rcases le_or_lt 0 y with hy | hy
    · rw [atan2_neg_x_nonneg_y hx hy]
      have hnp : Real.arctan (y / x) ≤ 0 :=
        arctan_nonpos_of_nonpos (div_nonpos_iff.mpr (Or.inl ⟨hy, hx.le⟩))
      rw [if_pos (by linarith)]
      ring
    · rw [atan2_neg_x_neg_y hx hy]
      have hp : 0 < Real.arctan (y / x) :=
        arctan_pos_of_pos (div_pos_iff.mpr (Or.inr ⟨hy, hx⟩))
      rw [if_neg (by intro hc; linarith)]
      ring
  · subst hx
    rcases lt_trichotomy y 0 with hy | hy | hy
    · have hy2 : 0 < -y := by linarith
      rw [neg_zero, atan2_zero_x_pos_y hy2, atan2_zero_x_neg_y hy,
        if_neg (by intro hc; linarith)]
      ring
    · exact absurd ⟨hy, rfl⟩ h
    · have hy2 : -y < 0 := by linarith
      rw [neg_zero, atan2_zero_x_neg_y hy2, atan2_zero_x_pos_y hy,
        if_pos (by linarith)]
      ring
  · have hx2 : -x < 0 := by linarith
    rw [atan2_pos_x hx]
    rcases lt_trichotomy y 0 with hy | hy | hy
    · have hy2 : 0 ≤ -y := by linarith
      have hn : Real.arctan (y / x) < 0 :=
        arctan_neg_of_neg (div_neg_of_neg_of_pos hy hx)
      rw [atan2_neg_x_nonneg_y hx2 hy2, hdiv, if_neg (by intro hc; linarith)]
    · subst hy
      have hz : (0 : ℝ) / x = 0 := zero_div x
      rw [atan2_neg_x_nonneg_y hx2 (by linarith), hdiv, hz, Real.arctan_zero,
        if_neg (lt_irrefl 0)]
    · have hy2 : -y < 0 := by linarith
      have hp : 0 < Real.arctan (y / x) :=
        arctan_pos_of_pos (div_pos hy hx)
      rw [atan2_neg_x_neg_y hx2 hy2, hdiv, if_pos hp]

theorem degrees_bounds {θ : ℝ} (h1 : -Real.pi < θ) (h2 : θ ≤ Real.pi) :
    -180 < degrees θ ∧ degrees θ ≤ 180 := by
  have hπ := Real.pi_pos
  unfold degrees
  constructor
  · rw [lt_div_iff₀ hπ]
    nlinarith
  · rw [div_le_iff₀ hπ]
    nlinarith

theorem degrees_sub_pi (θ : ℝ) : degrees (θ - Real.pi) = degrees θ - 180 := by
  unfold degrees
  have hπ := Real.pi_pos.ne.symm
  field_simp
  ring

theorem degrees_add_pi (θ : ℝ) : degrees (θ + Real.pi) = degrees θ + 180 := by
  unfold degrees
  have hπ := Real.pi_pos.ne.symm
  field_simp
  ring

theorem degrees_pos {θ : ℝ} (h : 0 < θ) : 0 < degrees θ := by
  unfold degrees
  positivity

theorem degrees_nonpos {θ : ℝ} (h : θ ≤ 0) : degrees θ ≤ 0 := by
  unfold degrees
  have hπ := Real.pi_pos
  rw [div_nonpos_iff]
  right
  constructor
  · nlinarith
  · linarith

theorem normalize_deg_range {d : ℝ} (h1 : -180 < d) (h2 : d ≤ 180) :
    0 ≤ normalize_deg d ∧ normalize_deg d < 360 := by
  unfold normalize_deg
  split_ifs with h
  · constructor <;> linarith
  · push_neg at h
    constructor <;> linarith

/-- Normalized degree angle of a window normal, as computed inside
vector_to_compass_orientation. -/
noncomputable def norm_angle (y x : ℝ) : ℝ := normalize_deg (degrees (atan2 y x))

theorem norm_angle_range (y x : ℝ) :
    0 ≤ norm_angle y x ∧ norm_angle y x < 360 := by
  have hr := atan2_range y x
  have hd := degrees_bounds hr.1 hr.2
  exact normalize_deg_range hd.1 hd.2

/-- Negating both atan2 arguments of a non-degenerate input shifts the
normalized degree angle by 180, upward or downward. -/
theorem norm_angle_antipode {y x : ℝ} (h : ¬(y = 0 ∧ x = 0)) :
    norm_angle (-y) (-x) = norm_angle y x + 180 ∨
    norm_angle (-y) (-x) = norm_angle y x - 180 := by
  have hr := atan2_range y x
  have hd := degrees_bounds hr.1 hr.2
  have ha := atan2_neg_neg h
  by_cases hθ : 0 < atan2 y x
  · rw [if_pos hθ] at ha
    have hdpos : 0 < degrees (atan2 y x) := degrees_pos hθ
    have h1 : norm_angle y x = degrees (atan2 y x) := by
      unfold norm_angle normalize_deg
      rw [if_neg (by linarith)]
    have h2 : degrees (atan2 (-y) (-x)) = degrees (atan2 y x) - 180 := by
      rw [ha, degrees_sub_pi]
    by_cases hneg : degrees (atan2 y x) - 180 < 0
    · left
      unfold norm_angle normalize_deg
      rw [h2, if_pos hneg, if_neg (by linarith)]
      ring
    · right
      push_neg at hneg
      unfold norm_angle normalize_deg
      rw [h2, if_neg (by linarith), if_neg (by linarith)]
  · push_neg at hθ
    rw [if_neg (by linarith)] at ha
    have hdnp : degrees (atan2 y x) ≤ 0 := degrees_nonpos hθ
    have h2 : degrees (atan2 (-y) (-x)) = degrees (atan2 y x) + 180 := by
      rw [ha, degrees_add_pi]
    by_cases hneg : degrees (atan2 y x) < 0
    · right
      unfold norm_angle normalize_deg
      rw [h2, if_neg (by linarith), if_pos hneg]
      ring
    · left
      push_neg at hneg
      have hzero : degrees (atan2 y x) = 0 := le_antisymm hdnp hneg
      unfold norm_angle normalize_deg
      rw [h2, hzero, if_neg (by norm_num), if_neg (by norm_num)]

theorem compass_label_eq_noord {a : ℝ} (h : compass_label a = "Noord") :
    337.5 ≤ a ∨ a < 22.5 := by
  by_contra hc
  unfold compass_label at h
  rw [if_neg hc] at h
  split_ifs at h <;> exact absurd h (by decide)

theorem compass_label_eq_zuid {a : ℝ} (h : compass_label a = "Zuid") :
    157.5 ≤ a ∧ a < 202.5 := by
  unfold compass_label at h
  split_ifs at h with h1 h2 h3 h4 h5 h6 h7 <;>
    first
    | exact absurd h (by decide)
    | (push_neg at h4; exact ⟨h4, h5⟩)

theorem compass_label_eq_oost {a : ℝ} (h : compass_label a = "Oost") :
    67.5 ≤ a ∧ a < 112.5 := by
  unfold compass_label at h
  split_ifs at h with h1 h2 h3 h4 h5 h6 h7 <;>
    first
    | exact absurd h (by decide)
    | (push_neg at h2; exact ⟨h2, h3⟩)

theorem compass_label_eq_west {a : ℝ} (h : compass_label a = "West") :
    247.5 ≤ a ∧ a < 292.5 := by
  unfold compass_label at h
  split_ifs at h with h1 h2 h3 h4 h5 h6 h7 <;>
    first
    | exact absurd h (by decide)
    | (push_neg at h6; exact ⟨h6, h7⟩)

theorem compass_label_noord {a : ℝ} (h : 337.5 ≤ a ∨ a < 22.5) :
    compass_label a = "Noord" := by
  unfold compass_label
  rw [if_pos h]

theorem compass_label_zuid {a : ℝ} (h1 : 157.5 ≤ a) (h2 : a < 202.5) :
    compass_label a = "Zuid" := by
  unfold compass_label
  rw [if_neg (by push_neg; constructor <;> linarith), if_neg (by linarith),
    if_neg (by linarith), if_neg (by linarith), if_pos h2]

theorem compass_label_oost {a : ℝ} (h1 : 67.5 ≤ a) (h2 : a < 112.5) :
    compass_label a = "Oost" := by
  unfold compass_label
  rw [if_neg (by push_neg; constructor <;> linarith), if_neg (by linarith),
    if_pos h2]

theorem compass_label_west {a : ℝ} (h1 : 247.5 ≤ a) (h2 : a < 292.5) :
    compass_label a = "West" := by
  unfold compass_label
  rw [if_neg (by push_neg; constructor <;> linarith), if_neg (by linarith),
    if_neg (by linarith), if_neg (by linarith), if_neg (by linarith),
    if_neg (by linarith), if_pos h2]

theorem compass_label_mem (a : ℝ) :
    compass_label a ∈ ["Noord", "Noord Oost", "Oost", "Zuid Oost", "Zuid",
      "Zuid West", "West", "Noord West"] := by
  unfold compass_label
  split_ifs <;> simp

/-- C8 counterexample: the vertical unit normal (0, 0, 1) is classified
Noord, and negating its X and Y components (a 180 degree azimuth rotation)
leaves it classified Noord rather than Zuid, so the North-South flip fails
on this unit normal. -/
theorem vertical_normal_no_flip :
    vector_to_compass_orientation ⟨0, 0, 1⟩ = "Noord" ∧
    vector_to_compass_orientation ⟨-(0 : ℝ), -(0 : ℝ), (1 : ℝ)⟩ = "Noord" := by
  have hz : vector_to_compass_orientation ⟨0, 0, 1⟩ = "Noord" := by
    unfold vector_to_compass_orientation
    rw [atan2_zero_zero]
    have : degrees 0 = 0 := by unfold degrees; simp
    rw [this]
    have : normalize_deg 0 = 0 := by unfold normalize_deg; norm_num
    rw [this]
    exact compass_label_noord (Or.inr (by norm_num))
  refine ⟨hz, ?_⟩
  rw [show (⟨-(0 : ℝ), -(0 : ℝ), (1 : ℝ)⟩ : Vec3) = ⟨0, 0, 1⟩ by norm_num]
  exact hz

/-- C8 amended: the orientation classifier always returns one of the 8
compass labels and depends only on the X and Y components of the normal;
and for every normal whose XY projection is nonzero, the 180 degree azimuth
rotation (negating X and Y) swaps Noord with Zuid and Oost with West. -/
theorem orientation_flip (n : Vec3) :
    vector_to_compass_orientation n ∈ ["Noord", "Noord Oost", "Oost",
      "Zuid Oost", "Zuid", "Zuid West", "West", "Noord West"] ∧
    (∀ m : Vec3, m.X = n.X → m.Y = n.Y →
      vector_to_compass_orientation m = vector_to_compass_orientation n) ∧
    (¬(n.X = 0 ∧ n.Y = 0) →
      (vector_to_compass_orientation n = "Noord" →
        vector_to_compass_orientation ⟨-n.X, -n.Y, n.Z⟩ = "Zuid") ∧
      (vector_to_compass_orientation n = "Zuid" →
        vector_to_compass_orientation ⟨-n.X, -n.Y, n.Z⟩ = "Noord") ∧
      (vector_to_compass_orientation n = "Oost" →
        vector_to_compass_orientation ⟨-n.X, -n.Y, n.Z⟩ = "West") ∧
      (vector_to_compass_orientation n = "West" →
        vector_to_compass_orientation ⟨-n.X, -n.Y, n.Z⟩ = "Oost")) := by
  refine ⟨compass_label_mem _, ?_, ?_⟩
  · intro m h1 h2
    unfold vector_to_compass_orientation
    rw [h1, h2]
  · intro hne
    have hra := norm_angle_range n.X n.Y
    have hrb := norm_angle_range (-n.X) (-n.Y)
    have hpm := norm_angle_antipode hne
    have hshow : vector_to_compass_orientation n =
        compass_label (norm_angle n.X n.Y) := rfl
    have hshow2 : vector_to_compass_orientation ⟨-n.X, -n.Y, n.Z⟩ =
        compass_label (norm_angle (-n.X) (-n.Y)) := rfl
    set a := norm_angle n.X n.Y with ha
    set b := norm_angle (-n.X) (-n.Y) with hb
    refine ⟨?_, ?_, ?_, ?_⟩
    · intro h
      rw [hshow] at h
      rw [hshow2]
      rcases compass_label_eq_noord h with hc | hc <;>
        rcases hpm with hp | hp <;>
        exact compass_label_zuid (by linarith [hra.1, hra.2, hrb.1, hrb.2])
          (by linarith [hra.1, hra.2, hrb.1, hrb.2])
    · intro h
      rw [hshow] at h
      rw [hshow2]
      have hc := compass_label_eq_zuid h
      rcases hpm with hp | hp
      · exact compass_label_noord (Or.inl (by linarith [hrb.2]))
      · exact compass_label_noord (Or.inr (by linarith [hrb.1]))
    · intro h
      rw [hshow] at h
      rw [hshow2]
      have hc := compass_label_eq_oost h
      rcases hpm with hp | hp
      · exact compass_label_west (by linarith) (by linarith)
      · linarith [hrb.1]
    · intro h
      rw [hshow] at h
      rw [hshow2]
      have hc := compass_label_eq_west h
      rcases hpm with hp | hp
      · linarith [hrb.2]
      · exact compass_label_oost (by linarith) (by linarith)

/-- C8 witness: the due-north unit normal (0, 1, 0) has a nonzero XY
projection and the flip theorem sends its Zuid-facing antipode
(0, -1, 0) to the Zuid label. -/
theorem orientation_flip_witness :
    ¬((0 : ℝ) = 0 ∧ (1 : ℝ) = 0) ∧
    vector_to_compass_orientation ⟨-(0 : ℝ), -(1 : ℝ), (0 : ℝ)⟩ = "Zuid" := by
  have hnoord : vector_to_compass_orientation ⟨0, 1, 0⟩ = "Noord" := by
    unfold vector_to_compass_orientation
    have h1 : atan2 (0 : ℝ) 1 = 0 := by
      rw [atan2_pos_x one_pos]
      norm_num [Real.arctan_zero]
    rw [h1]
    have h2 : degrees 0 = 0 := by unfold degrees; simp
    rw [h2]
    have h3 : normalize_deg 0 = 0 := by unfold normalize_deg; norm_num
    rw [h3]
    exact compass_label_noord (Or.inr (by norm_num))
  exact ⟨by norm_num,
    ((orientation_flip ⟨0, 1, 0⟩).2.2 (by norm_num)).1 hnoord⟩

/-- C3: for every window mesh with an empty vertex list or an empty face
list, the backend per-window entry point returns the fixed Error record
(classification Error, Fsh 1.0, orientation Unknown) for every shading
mesh, context list, month, calculation type and geometry-library
behaviour. -/
theorem classify_invalid_window (lib : TrimeshLib) (t : FshTables)
    (mesh : RhinoMesh) (shading_mesh : Option RhinoMesh)
    (context_data : List ContextItem) (month : ℕ) (calc_type : String)
    (h : mesh.vertices = [] ∨ mesh.faces = []) :
    classify_window_logic lib t (some mesh) shading_mesh context_data month
        calc_type =
      { classification := "Error", fsh_factor := 1, orientation := "Unknown",
        ho_ratio := 0, context_angle := 0, shading_angle := 90,
        context_blocked := 0, shading_blocked := 0,
        dominant_factor := "Error" } := by
  have hnone : get_mesh_center_and_normal lib (some mesh) = none := by
    simp only [get_mesh_center_and_normal]
    rcases h with h | h
    · rw [if_pos (by simp [h])]
    · have hconv : rhino_mesh_to_trimesh (some mesh) = none := by
        simp only [rhino_mesh_to_trimesh]
        rw [if_pos (by simp [h])]
      by_cases hv : mesh.vertices.isEmpty
      · rw [if_pos hv]
      · rw [if_neg hv, hconv]
  simp only [classify_window_logic, hnone]

/-- Trivial geometry-library oracle used by the concrete witnesses. -/
noncomputable def trivLib : TrimeshLib :=
  { centroid := fun _ => ⟨0, 0, 0⟩, faceData := fun _ => [],
    rhinoBBox := fun _ => ⟨⟨0, 0, 0⟩, ⟨0, 0, 0⟩⟩,
    raycast := fun _ _ _ => [] }

/-- Empty backend table set used by the concrete witnesses. -/
def trivTables : FshTables :=
  { t17_4 := fun _ _ => none, t17_5 := fun _ _ => none,
    t17_6 := fun _ _ => none, t17_7 := fun _ _ => none,
    t17_8 := fun _ _ => none, t17_9 := fun _ _ => none }

/-- C3 witness: the concrete vertex-free, face-free window mesh produces
the Error record under the trivial oracle. -/
theorem classify_invalid_window_witness :
    ((⟨[], []⟩ : RhinoMesh).vertices = [] ∨
      (⟨[], []⟩ : RhinoMesh).faces = []) ∧
    classify_window_logic trivLib trivTables (some ⟨[], []⟩) none [] 6 "H" =
      { classification := "Error", fsh_factor := 1, orientation := "Unknown",
        ho_ratio := 0, context_angle := 0, shading_angle := 90,
        context_blocked := 0, shading_blocked := 0,
        dominant_factor := "Error" } :=
  ⟨Or.inl rfl,
    classify_invalid_window trivLib trivTables ⟨[], []⟩ none [] 6 "H"
      (Or.inl rfl)⟩

theorem vertical_angle_bounds {q : ℚ} (h : q ∈ VERTICAL_ANGLES) :
    0 ≤ q ∧ q ≤ 80 := by
  unfold VERTICAL_ANGLES at h
  fin_cases h <;> norm_num

theorem getD_zero_bounds {angles : List ℚ}
    (h : ∀ x ∈ angles, 0 ≤ x ∧ x ≤ 80) (i : ℕ) :
    0 ≤ angles.getD i 0 ∧ angles.getD i 0 ≤ 80 := by
  by_cases hi : i < angles.length
  · rw [List.getD_eq_getElem angles 0 hi]
    exact h _ (List.getElem_mem hi)
  · push_neg at hi
    rw [List.getD_eq_default angles 0 hi]
    norm_num

theorem sample_max_angle_bounds {angles : List ℚ}
    (h : ∀ x ∈ angles, 0 ≤ x ∧ x ≤ 80) (hits : List (ℕ × ℚ)) :
    0 ≤ sample_max_angle angles hits ∧ sample_max_angle angles hits ≤ 80 := by
  unfold sample_max_angle
  constructor
  · apply listMax_nonneg
    intro x hx
    rcases List.mem_map.mp hx with ⟨i, _, rfl⟩
    exact (getD_zero_bounds h i).1
  · apply listMax_le (by norm_num)
    intro x hx
    rcases List.mem_map.mp hx with ⟨i, _, rfl⟩
    exact (getD_zero_bounds h i).2

/-- C10: for every sample-point list with non-negative weights (sample
points carry positive weights by construction), every ray-direction list
whose elevations are drawn from VERTICAL_ANGLES, every context mesh and
every intersector behaviour, the aggregated context angle lies in
[0, 80]. -/
theorem context_angle_bounds
    (raycast : Trimesh → List Point3 → List Vec3 → List (ℕ × ℚ))
    (sample_points : List (Point3 × ℚ)) (ray_directions : List (Vec3 × ℚ × ℚ))
    (context_trimesh : Option Trimesh)
    (hva : ∀ d ∈ ray_directions, d.2.1 ∈ VERTICAL_ANGLES)
    (hw : ∀ s ∈ sample_points, 0 ≤ s.2) :
    0 ≤ cast_rays_for_context raycast sample_points ray_directions
        context_trimesh ∧
    cast_rays_for_context raycast sample_points ray_directions
        context_trimesh ≤ 80 := by
  have hab : ∀ x ∈ ray_directions.map (fun d => d.2.1), 0 ≤ x ∧ x ≤ 80 := by
    intro x hx
    rcases List.mem_map.mp hx with ⟨d, hd, rfl⟩
    exact vertical_angle_bounds (hva d hd)
  cases context_trimesh with
  | none => norm_num [cast_rays_for_context]
  | some tm =>
    simp only [cast_rays_for_context]
    by_cases hf : tm.faces.isEmpty
    · rw [if_pos hf]
      norm_num
    · rw [if_neg hf]
      by_cases he : (sample_points.map fun s =>
          (sample_max_angle (ray_directions.map fun d => d.2.1)
            (raycast tm (ray_directions.map fun _ => s.1)
              (ray_directions.map fun d => d.1)), s.2)).isEmpty
      · rw [if_pos he]
        norm_num
      · rw [if_neg he]
        set srs := sample_points.map fun s =>
          (sample_max_angle (ray_directions.map fun d => d.2.1)
            (raycast tm (ray_directions.map fun _ => s.1)
              (ray_directions.map fun d => d.1)), s.2) with hsrs
        have hmem1 : ∀ r ∈ srs, (0 ≤ r.1 ∧ r.1 ≤ 80) ∧ 0 ≤ r.2 := by
          intro r hr
          rcases List.mem_map.mp hr with ⟨s, hs, rfl⟩
          exact ⟨sample_max_angle_bounds hab _, hw s hs⟩
        set tw := (srs.map fun r => r.2).sum with htw
        set ws := (srs.map fun r => r.1 * r.2).sum with hws
        have htw0 : 0 ≤ tw := by
          apply List.sum_nonneg
          intro x hx
          rcases List.mem_map.mp hx with ⟨r, hr, rfl⟩
          exact (hmem1 r hr).2
        have hws0 : 0 ≤ ws := by
          apply List.sum_nonneg
          intro x hx
          rcases List.mem_map.mp hx with ⟨r, hr, rfl⟩
          exact mul_nonneg (hmem1 r hr).1.1 (hmem1 r hr).2
        have hws80 : ws ≤ 80 * tw := by
          rw [hws, htw]
          have h1 : (srs.map fun r => r.1 * r.2).sum ≤
              (srs.map fun r => 80 * r.2).sum := by
            apply List.sum_le_sum
            intro r hr
            exact mul_le_mul_of_nonneg_right (hmem1 r hr).1.2 (hmem1 r hr).2
          have h2 : (srs.map fun r => 80 * r.2).sum =
              80 * (srs.map fun r => r.2).sum := by
            rw [← List.sum_map_mul_left]
          rw [h2] at h1
          exact h1
        have hm0 : 0 ≤ listMax (srs.map fun r => r.1) := by
          apply listMax_nonneg
          intro x hx
          rcases List.mem_map.mp hx with ⟨r, hr, rfl⟩
          exact (hmem1 r hr).1.1
        have hm80 : listMax (srs.map fun r => r.1) ≤ 80 := by
          apply listMax_le (by norm_num)
          intro x hx
          rcases List.mem_map.mp hx with ⟨r, hr, rfl⟩
          exact (hmem1 r hr).1.2
        by_cases hpos : 0 < tw
        · rw [if_pos hpos]
          have havg0 : 0 ≤ ws / tw := div_nonneg hws0 htw0
          have havg80 : ws / tw ≤ 80 := by
            rw [div_le_iff₀ hpos]
            linarith
          constructor <;> nlinarith
        · rw [if_neg hpos]
          norm_num

/-- C10 witness: a concrete one-sample, one-ray configuration with a valid
hit stays within [0, 80]. -/
theorem context_angle_bounds_witness :
    ((40 : ℚ) ∈ VERTICAL_ANGLES ∧ (0 : ℚ) ≤ 1.5) ∧
    (0 ≤ cast_rays_for_context (fun _ _ _ => [(0, 1)])
        [(⟨0, 0, 0⟩, 1.5)] [(⟨0, 0, 1⟩, 40, 0)] (some ⟨[], [(0, 1, 2)]⟩) ∧
      cast_rays_for_context (fun _ _ _ => [(0, 1)])
        [(⟨0, 0, 0⟩, 1.5)] [(⟨0, 0, 1⟩, 40, 0)] (some ⟨[], [(0, 1, 2)]⟩) ≤ 80) :=
  ⟨⟨by norm_num [VERTICAL_ANGLES], by norm_num⟩,
    context_angle_bounds (fun _ _ _ => [(0, 1)]) [(⟨0, 0, 0⟩, 1.5)]
      [(⟨0, 0, 1⟩, 40, 0)] (some ⟨[], [(0, 1, 2)]⟩)
      (by
        intro d hd
        simp only [List.mem_singleton] at hd
        subst hd
        norm_num [VERTICAL_ANGLES])
      (by
        intro s hs
        simp only [List.mem_singleton] at hs
        subst hs
        norm_num)⟩

/-- C5: the context ray caster returns 0 for a missing or face-free context
mesh; with context present and a positive total sample weight it returns
exactly the spec formula 0.7 times the weighted average of the per-sample
maxima plus 0.3 times their absolute maximum; and it returns 0 whenever no
ray of any sample registers a hit with distance in
[MIN_RAY_DISTANCE, MAX_CONTEXT_DISTANCE). -/
theorem context_aggregate_formula
    (raycast : Trimesh → List Point3 → List Vec3 → List (ℕ × ℚ))
    (sample_points : List (Point3 × ℚ))
    (ray_directions : List (Vec3 × ℚ × ℚ)) (context_trimesh : Option Trimesh) :
    ((context_trimesh = none ∨
        ∃ tm, context_trimesh = some tm ∧ tm.faces = []) →
      cast_rays_for_context raycast sample_points ray_directions
        context_trimesh = 0) ∧
    (∀ tm, context_trimesh = some tm → tm.faces ≠ [] →
      0 < (sample_points.map fun s => s.2).sum →
      cast_rays_for_context raycast sample_points ray_directions
          context_trimesh =
        context_aggregate_from_spec (sample_points.map fun s =>
          (sample_max_angle (ray_directions.map fun d => d.2.1)
            (raycast tm (ray_directions.map fun _ => s.1)
              (ray_directions.map fun d => d.1)), s.2))) ∧
    (∀ tm, context_trimesh = some tm →
      (∀ s ∈ sample_points, valid_context_hits
        (raycast tm (ray_directions.map fun _ => s.1)
          (ray_directions.map fun d => d.1)) = []) →
      cast_rays_for_context raycast sample_points ray_directions
        context_trimesh = 0) := by
  refine ⟨?_, ?_, ?_⟩
  · rintro (h | ⟨tm, rfl, hf⟩)
    · subst h
      rfl
    · simp only [cast_rays_for_context]
      rw [if_pos (by simp [hf])]
  · rintro tm rfl hf hwpos
    simp only [cast_rays_for_context]
    rw [if_neg (by simp [hf])]
    set srs := sample_points.map fun s =>
      (sample_max_angle (ray_directions.map fun d => d.2.1)
        (raycast tm (ray_directions.map fun _ => s.1)
          (ray_directions.map fun d => d.1)), s.2) with hsrs
    have hwts : (srs.map fun r => r.2).sum =
        (sample_points.map fun s => s.2).sum := by
      rw [hsrs, List.map_map]
      rfl
    have hne : ¬srs.isEmpty := by
      intro hcon
      rw [List.isEmpty_iff] at hcon
      have : sample_points = [] := by
        rcases sample_points with _ | ⟨a, as⟩
        · rfl
        · simp [hsrs] at hcon
      rw [this] at hwpos
      simp at hwpos
    rw [if_neg hne, if_pos (by rw [hwts]; exact hwpos)]
    unfold context_aggregate_from_spec
    ring
  · rintro tm rfl hnohit
    simp only [cast_rays_for_context]
    by_cases hf : tm.faces.isEmpty
    · rw [if_pos hf]
    · rw [if_neg hf]
      set srs := sample_points.map fun s =>
        (sample_max_angle (ray_directions.map fun d => d.2.1)
          (raycast tm (ray_directions.map fun _ => s.1)
            (ray_directions.map fun d => d.1)), s.2) with hsrs
      have hzero : ∀ r ∈ srs, r.1 = 0 := by
        intro r hr
        rcases List.mem_map.mp hr with ⟨s, hs, rfl⟩
        unfold sample_max_angle
        rw [hnohit s hs]
        rfl
      by_cases he : srs.isEmpty
      · rw [if_pos he]
      · rw [if_neg he]
        have hws : (srs.map fun r => r.1 * r.2).sum = 0 := by
          apply List.sum_eq_zero
          intro x hx
          rcases List.mem_map.mp hx with ⟨r, hr, rfl⟩
          rw [hzero r hr, zero_mul]
        have hmax : listMax (srs.map fun r => r.1) = 0 := by
          apply listMax_eq_zero
          intro x hx
          rcases List.mem_map.mp hx with ⟨r, hr, rfl⟩
          exact hzero r hr
        by_cases hpos : 0 < (srs.map fun r => r.2).sum
        · rw [if_pos hpos, hws, hmax]
          norm_num
        · rw [if_neg hpos]

/-- C5 witness: concrete instances of all three branches: a missing context
mesh gives 0, and a concrete one-sample configuration with positive total
weight equals the spec aggregate. -/
theorem context_aggregate_formula_witness :
    cast_rays_for_context (fun _ _ _ => []) [(⟨0, 0, 0⟩, 2)] [] none = 0 ∧
    ((⟨[], [(0, 1, 2)]⟩ : Trimesh).faces ≠ [] ∧
      (0 : ℚ) < (([(⟨0, 0, 0⟩, 2)] : List (Point3 × ℚ)).map fun s => s.2).sum ∧
      cast_rays_for_context (fun _ _ _ => []) [(⟨0, 0, 0⟩, 2)] []
          (some ⟨[], [(0, 1, 2)]⟩) =
        context_aggregate_from_spec ((([(⟨0, 0, 0⟩, 2)] :
            List (Point3 × ℚ))).map fun s =>
          (sample_max_angle (([] : List (Vec3 × ℚ × ℚ)).map fun d => d.2.1)
            ((fun _ _ _ => ([] : List (ℕ × ℚ))) (⟨[], [(0, 1, 2)]⟩ : Trimesh)
              (([] : List (Vec3 × ℚ × ℚ)).map fun _ => s.1)
              (([] : List (Vec3 × ℚ × ℚ)).map fun d => d.1)), s.2))) :=
  ⟨(context_aggregate_formula (fun _ _ _ => []) [(⟨0, 0, 0⟩, 2)] [] none).1
      (Or.inl rfl),
   by decide,
   by norm_num,
   (context_aggregate_formula (fun _ _ _ => []) [(⟨0, 0, 0⟩, 2)] []
      (some ⟨[], [(0, 1, 2)]⟩)).2.1 ⟨[], [(0, 1, 2)]⟩ rfl (by decide)
      (by norm_num)⟩

theorem context_item_excluded (item : ContextItem) (wc : Point3) (wn : Vec3)
    (wb : BBox)
    (h : (500 : ℝ) < Real.sqrt ((bbox_center_x item.bbox - wc.X) ^ 2 +
      (bbox_center_y item.bbox - wc.Y) ^ 2)) :
    context_item_passes item wc wn wb = false := by
  have h0 : (0 : ℝ) ≤ 500 := by norm_num
  have hsq : (500 : ℝ) ^ 2 < (bbox_center_x item.bbox - wc.X) ^ 2 +
      (bbox_center_y item.bbox - wc.Y) ^ 2 := (Real.lt_sqrt h0).mp h
  simp only [context_item_passes]
  split_ifs with h1 h2 h3
  · rfl
  · rfl
  · rfl
  · exfalso
    apply h2
    unfold MAX_CONTEXT_DISTANCE
    push_cast
    nlinarith [hsq]

theorem filter_excluded_append (ctx : List ContextItem) (item : ContextItem)
    (wc : Point3) (wn : Vec3) (wb : BBox)
    (h : (500 : ℝ) < Real.sqrt ((bbox_center_x item.bbox - wc.X) ^ 2 +
      (bbox_center_y item.bbox - wc.Y) ^ 2)) :
    filter_context_for_window (ctx ++ [item]) wc wn wb =
      filter_context_for_window ctx wc wn wb := by
  have hip := context_item_excluded item wc wn wb h
  unfold filter_context_for_window
  by_cases hc : ctx.isEmpty
  · rw [List.isEmpty_iff] at hc
    subst hc
    simp [hip]
  · rw [if_neg (by simp), if_neg hc, List.filter_append]
    simp [hip]

/-- C6: a context item whose bounding-box center lies at horizontal
distance greater than 500 units from the window center is excluded by the
prefilter, and appending such an item to the context list leaves the whole
backend classification result unchanged for every window, shading mesh,
month, calculation type, table set and geometry-library behaviour. -/
theorem far_context_no_effect :
    (∀ (ctx : List ContextItem) (item : ContextItem) (wc : Point3)
      (wn : Vec3) (wb : BBox),
      (500 : ℝ) < Real.sqrt ((bbox_center_x item.bbox - wc.X) ^ 2 +
        (bbox_center_y item.bbox - wc.Y) ^ 2) →
      filter_context_for_window (ctx ++ [item]) wc wn wb =
        filter_context_for_window ctx wc wn wb) ∧
    (∀ (lib : TrimeshLib) (t : FshTables) (wm sh : Option RhinoMesh)
      (ctx : List ContextItem) (item : ContextItem) (month : ℕ)
      (calc_type : String),
      (∀ props : MeshProps, get_mesh_center_and_normal lib wm = some props →
        (500 : ℝ) < Real.sqrt ((bbox_center_x item.bbox -
          props.center.X) ^ 2 + (bbox_center_y item.bbox -
          props.center.Y) ^ 2)) →
      classify_window_logic lib t wm sh (ctx ++ [item]) month calc_type =
        classify_window_logic lib t wm sh ctx month calc_type) := by
  refine ⟨filter_excluded_append, ?_⟩
  intro lib t wm sh ctx item month calc_type h
  unfold classify_window_logic
  cases hm : get_mesh_center_and_normal lib wm with
  | none => rfl
  | some props =>
    have hfilter := filter_excluded_append ctx item props.center props.normal
      props.bbox (h props hm)
    simp only [hfilter]

theorem unitize_zero : unitize ⟨0, 0, 0⟩ = (⟨0, 0, 0⟩ : Vec3) := by
  unfold unitize vlength
  rw [if_pos (by norm_num [Real.sqrt_zero])]

theorem trivLib_props :
    get_mesh_center_and_normal trivLib
        (some ⟨[⟨0, 0, 0⟩], [⟨0, 1, 2, 2⟩]⟩) =
      some ⟨⟨0, 0, 0⟩, ⟨0, 0, 0⟩, ⟨⟨0, 0, 0⟩, ⟨0, 0, 0⟩⟩⟩ := by
  simp only [get_mesh_center_and_normal, rhino_mesh_to_trimesh, trivLib]
  norm_num [unitize_zero]
  rw [show face_to_tris ⟨0, 1, 2, 2⟩ = [(0, 1, 2)] from by decide]
  norm_num

/-- C6 witness: a context item with bounding box centered at x = 600 is at
horizontal distance 600 > 500 from the window at the origin; appending it
changes neither the prefilter output nor the backend classification
result. -/
theorem far_context_no_effect_witness :
    ((500 : ℝ) < Real.sqrt ((bbox_center_x ⟨⟨600, 0, 0⟩, ⟨600, 0, 0⟩⟩ -
        (Point3.mk 0 0 0).X) ^ 2 +
      (bbox_center_y ⟨⟨600, 0, 0⟩, ⟨600, 0, 0⟩⟩ -
        (Point3.mk 0 0 0).Y) ^ 2) ∧
      filter_context_for_window
          ([] ++ [⟨⟨[], []⟩, ⟨⟨600, 0, 0⟩, ⟨600, 0, 0⟩⟩, 0⟩])
          ⟨0, 0, 0⟩ ⟨0, 1, 0⟩ ⟨⟨0, 0, 0⟩, ⟨0, 0, 0⟩⟩ =
        filter_context_for_window [] ⟨0, 0, 0⟩ ⟨0, 1, 0⟩
          ⟨⟨0, 0, 0⟩, ⟨0, 0, 0⟩⟩) ∧
    classify_window_logic trivLib trivTables
        (some ⟨[⟨0, 0, 0⟩], [⟨0, 1, 2, 2⟩]⟩) none
        ([] ++ [⟨⟨[], []⟩, ⟨⟨600, 0, 0⟩, ⟨600, 0, 0⟩⟩, 0⟩]) 6 "H" =
      classify_window_logic trivLib trivTables
        (some ⟨[⟨0, 0, 0⟩], [⟨0, 1, 2, 2⟩]⟩) none [] 6 "H" := by
  have hcx : bbox_center_x ⟨⟨600, 0, 0⟩, ⟨600, 0, 0⟩⟩ = 600 := by
    norm_num [bbox_center_x]
  have hcy : bbox_center_y ⟨⟨600, 0, 0⟩, ⟨600, 0, 0⟩⟩ = 0 := by
    norm_num [bbox_center_y]
  have hdist : (500 : ℝ) < Real.sqrt
      ((bbox_center_x ⟨⟨600, 0, 0⟩, ⟨600, 0, 0⟩⟩ - (Point3.mk 0 0 0).X) ^ 2 +
        (bbox_center_y ⟨⟨600, 0, 0⟩, ⟨600, 0, 0⟩⟩ -
          (Point3.mk 0 0 0).Y) ^ 2) := by
    rw [hcx, hcy]
    exact (Real.lt_sqrt (by norm_num)).mpr (by norm_num)
  refine ⟨⟨hdist, far_context_no_effect.1 [] _ _ ⟨0, 1, 0⟩
    ⟨⟨0, 0, 0⟩, ⟨0, 0, 0⟩⟩ hdist⟩, ?_⟩
  apply far_context_no_effect.2
  intro props hp
  rw [trivLib_props] at hp
  have hprops : props = ⟨⟨0, 0, 0⟩, ⟨0, 0, 0⟩, ⟨⟨0, 0, 0⟩, ⟨0, 0, 0⟩⟩⟩ :=
    (Option.some.injEq _ _).mp hp.symm
  subst hprops
  exact hdist
